import Mathlib

/-!
Shallow embedding of the WaterGuard dashboard core (`src/app.py`):
the metrics and alert pipeline that the dashboard builds over the
simulated water-usage table.  Measurements are modelled as exact
rationals; pandas dataframe columns become Lean lists; the per-row
annotation passes (`anomaly`, `severity`) become pure functions on
those lists.
-/

namespace WaterGuard

/-- Severity classification of a usage value, embedding
`pd.cut(df['usage_liters'], bins=[-np.inf, 20, 40, np.inf],
labels=['Low', 'Medium', 'High'])` (app.py lines 552-554).
`pd.cut` uses right-closed bins, so the intervals are
(-inf, 20], (20, 40], (40, inf). -/
def severity (v : ℚ) : String :=
  if v ≤ 20 then "Low"
  else if v ≤ 40 then "Medium"
  else "High"

/-- Threshold evaluation, the generic form of the alert decision at
app.py lines 851-858: `high_usage_threshold = daily_quota * 0.9;
if day_usage > high_usage_threshold: ... warning`.  The source
instantiates it with `quota = 1500` and `ratio = 0.9`. -/
def evaluate_threshold (total quota ratio : ℚ) : String :=
  if quota * ratio < total then "warning" else "ok"

/-- Mapping of a single scorer prediction to its anomaly label,
embedding the dict `{1: 'Normal', -1: 'Anomaly'}` of app.py line 549.
`IsolationForest.fit_predict` uses `-1` for an outlier and `1` for an
inlier; a pandas `.map` with a dict yields NaN for keys outside the
dict, modelled here by `none`. -/
def labelOf (p : ℤ) : Option String :=
  if p = 1 then some "Normal"
  else if p = -1 then some "Anomaly"
  else none

/-- Per-row anomaly labelling, embedding
`df['anomaly'] = model.fit_predict(...)` followed by
`df['anomaly'].map({1: 'Normal', -1: 'Anomaly'})`
(app.py lines 547-549), applied to the predictions of the scorer. -/
def anomalyLabels (preds : List ℤ) : List (Option String) :=
  preds.map labelOf

/-- Lower end of the resample span: the minimum truncated timestamp
of the rows (0 on no rows, unused there). -/
def resLo (trunc : ℕ → ℕ) : List (ℕ × ℚ) → ℕ
  | [] => 0
  | r :: rs => rs.foldl (fun a p => min a (trunc p.1)) (trunc r.1)

/-- Upper end of the resample span: the maximum truncated timestamp
of the rows (0 on no rows, unused there). -/
def resHi (trunc : ℕ → ℕ) : List (ℕ × ℚ) → ℕ
  | [] => 0
  | r :: rs => rs.foldl (fun a p => max a (trunc p.1)) (trunc r.1)

/-- Sum of the values of the rows whose truncated timestamp equals
the period key `k` (pandas sums an empty bin to 0). -/
def bucketSum (trunc : ℕ → ℕ) (rows : List (ℕ × ℚ)) (k : ℕ) : ℚ :=
  ((rows.filter (fun p => trunc p.1 == k)).map Prod.snd).sum

/-- Embedding of `df.set_index('timestamp').resample(freq)[field].sum()`
(app.py lines 933 and 967).  Timestamps are hours since 2024-01-01, as
produced by `pd.date_range(start='2024-01-01', freq='H')`; `trunc`
truncates an hour to its period key (day index or month index).
pandas `resample` emits one bin for every period between the first
and the last timestamp, summing each bin (an empty bin sums to 0),
in chronological order; on an empty frame it returns an empty frame. -/
def resampleSum (trunc : ℕ → ℕ) (rows : List (ℕ × ℚ)) : List (ℕ × ℚ) :=
  if rows.isEmpty then []
  else
    (List.range' (resLo trunc rows) (resHi trunc rows - resLo trunc rows + 1)).map
      (fun k => (k, bucketSum trunc rows k))

/-- Day lengths of the months of 2024 (a leap year), the year the
simulated `date_range` covers. -/
def monthLengths2024 : List ℕ := [31, 29, 31, 30, 31, 30, 31, 31, 30, 31, 30, 31]

/-- Month index of a day-of-year, by walking the month lengths. -/
def monthOfDayAux : List ℕ → ℕ → ℕ → ℕ
  | [], _, m => m
  | len :: rest, d, m => if d < len then m else monthOfDayAux rest (d - len) (m + 1)

/-- Day index of an hour since 2024-01-01 (the `resample('D')` bins). -/
def dayOfHour (h : ℕ) : ℕ := h / 24

/-- Month index of an hour since 2024-01-01 (the `resample('M')` bins). -/
def monthOfHour (h : ℕ) : ℕ := monthOfDayAux monthLengths2024 (h / 24) 0

/-- The daily quota, `daily_quota = 1500` (app.py line 813). -/
def daily_quota : ℚ := 1500

/-- The unit price, `cost_per_liter = 0.000193` (app.py line 817). -/
def cost_per_liter : ℚ := 193 / 1000000

/-- The sidebar's daily summary values. -/
structure DaySummary where
  dayUsage : ℚ
  remaining : ℚ
  cost : ℚ
deriving DecidableEq

/-- Embedding of the sidebar summary (app.py lines 812-818) over the
`usage_liters` values of the selected day:
`day_usage = df_day['usage_liters'].sum()`,
`remaining = max(daily_quota - day_usage, 0)`,
`daily_cost = day_usage * cost_per_liter`.
A pandas sum of an empty column is 0, so every statistic is a plain
number, never NaN. -/
def daySummary (dayRows : List ℚ) : DaySummary :=
  { dayUsage := dayRows.sum
    remaining := max (daily_quota - dayRows.sum) 0
    cost := dayRows.sum * cost_per_liter }

/-- Rendering of the spec's `summarize` contract for comparison with
`daySummary`: per the spec's words, on an empty input every statistic
is marked undefined (here `none`) rather than given a numeric
default. -/
def summarize_spec (dayRows : List ℚ) : Option DaySummary :=
  if dayRows.isEmpty then none else some (daySummary dayRows)

/-- Output of one dashboard run: the per-row anomaly labels and the
sidebar summary. -/
structure AppOutput where
  labels : List (Option String)
  summary : DaySummary
deriving DecidableEq

/-- One dashboard script run, embedding the top-to-bottom order of
app.py: anomaly scoring (`model.fit_predict`, lines 547-549) runs
unguarded at module level before the sidebar summary (lines 812-818)
is computed, so an exception raised by the scorer propagates and
aborts the whole run before any summary exists. -/
def runApp (scorer : List ℚ → Except String (List ℤ)) (usage : List ℚ) :
    Except String AppOutput :=
  match scorer usage with
  | .error e => .error e
  | .ok preds => .ok ⟨anomalyLabels preds, daySummary usage⟩

/-- A scorer that cannot fit its model (e.g. too few rows). -/
def failingScorer : List ℚ → Except String (List ℤ) :=
  fun _ => .error "could not fit model"

/-- One observation row of the simulated table: the timestamp (hours
since 2024-01-01), the four component columns and the `usage_liters`
total column. -/
structure Obs where
  ts : ℕ
  main : ℚ
  garden : ℚ
  kitchen : ℚ
  bathroom : ℚ
  total : ℚ
deriving DecidableEq

/-- Embedding of the two annotation passes (app.py lines 547-554):
each row is paired with its `anomaly` label (from the scorer's
prediction for that row) and its `severity` (from its `usage_liters`
value); the observation itself is carried through unchanged. -/
def addMetrics (rows : List Obs) (preds : List ℤ) :
    List (Obs × Option String × String) :=
  List.zipWith (fun r p => (r, labelOf p, severity r.total)) rows preds

/-- Recompute the `usage_liters` column of a row from its four
component columns (app.py lines 524-527 and 539-542). -/
def withTotal (r : Obs) : Obs :=
  { r with total := r.main + r.garden + r.kitchen + r.bathroom }

/-- Anomaly injection for one sampled row (app.py lines 533-536):
`df_local.loc[i, [four component columns]] *= factor` scales the four
component columns by one factor and leaves the now-stale
`usage_liters` column untouched. -/
def injectAnomaly (f : ℚ) (r : Obs) : Obs :=
  { r with main := r.main * f, garden := r.garden * f,
           kitchen := r.kitchen * f, bathroom := r.bathroom * f }

/-- The anomaly-injection loop (app.py lines 531-536): every sampled
index `i` (those with `anomalyFactor i = some f`) has its row's
component columns scaled by `f`. -/
def injectAnomalies (anomalyFactor : ℕ → Option ℚ) : ℕ → List Obs → List Obs
  | _, [] => []
  | i, r :: rs =>
    (match anomalyFactor i with
     | some f => injectAnomaly f r
     | none => r) :: injectAnomalies anomalyFactor (i + 1) rs

/-- Embedding of `simulate_data` (app.py lines 504-542) from the point
the component columns are drawn: the `usage_liters` total is computed,
anomaly spikes scale the component columns of the sampled rows, and
the total is recomputed from the components afterwards. -/
def simulate_data (base : List Obs) (anomalyFactor : ℕ → Option ℚ) : List Obs :=
  (injectAnomalies anomalyFactor 0 (base.map withTotal)).map withTotal

end WaterGuard

namespace WaterGuard

/-- C1: severity classification maps every usage value to exactly one
tier by the fixed breakpoints: Low iff v ≤ 20, Medium iff 20 < v ≤ 40,
High iff v > 40; the boundary values 20, 20.01, 40, 40.01 map to
Low, Medium, Medium, High respectively. -/
theorem severity_breakpoints :
    (∀ v : ℚ,
      (severity v = "Low" ↔ v ≤ 20) ∧
      (severity v = "Medium" ↔ 20 < v ∧ v ≤ 40) ∧
      (severity v = "High" ↔ 40 < v)) ∧
    severity 20 = "Low" ∧
    severity (2001/100) = "Medium" ∧
    severity 40 = "Medium" ∧
    severity (4001/100) = "High" := by
  refine ⟨fun v => ?_, ?_, ?_, ?_, ?_⟩
  · rcases le_or_lt v 20 with h1 | h1
    · have hs : severity v = "Low" := by unfold severity; rw [if_pos h1]
      refine ⟨⟨fun _ => h1, fun _ => hs⟩,
        ⟨fun he => ?_, fun hm => ?_⟩, ⟨fun he => ?_, fun hh => ?_⟩⟩
      · rw [hs] at he; exact absurd he (by decide)
      · linarith [hm.1]
      · rw [hs] at he; exact absurd he (by decide)
      · linarith
    · rcases le_or_lt v 40 with h2 | h2
      · have hs : severity v = "Medium" := by
          unfold severity; rw [if_neg (not_le.mpr h1), if_pos h2]
        refine ⟨⟨fun he => ?_, fun hle => ?_⟩,
          ⟨fun _ => ⟨h1, h2⟩, fun _ => hs⟩, ⟨fun he => ?_, fun hh => ?_⟩⟩
        · rw [hs] at he; exact absurd he (by decide)
        · linarith
        · rw [hs] at he; exact absurd he (by decide)
        · linarith
      · have hs : severity v = "High" := by
          unfold severity; rw [if_neg (not_le.mpr h1), if_neg (not_le.mpr h2)]
        refine ⟨⟨fun he => ?_, fun hle => ?_⟩,
          ⟨fun he => ?_, fun hm => ?_⟩, ⟨fun _ => h2, fun _ => hs⟩⟩
        · rw [hs] at he; exact absurd he (by decide)
        · linarith
        · rw [hs] at he; exact absurd he (by decide)
        · linarith [hm.2]
  · unfold severity; rw [if_pos (by norm_num : (20:ℚ) ≤ 20)]
  · unfold severity; rw [if_neg (by norm_num), if_pos (by norm_num)]
  · unfold severity; rw [if_neg (by norm_num), if_pos (by norm_num)]
  · unfold severity; rw [if_neg (by norm_num), if_neg (by norm_num)]

/-- Witness for `severity_breakpoints` at the concrete value 25. -/
theorem severity_breakpoints_witness :
    severity 25 = "Medium" ∧ (20:ℚ) < 25 ∧ (25:ℚ) ≤ 40 :=
  ⟨((severity_breakpoints.1 25).2.1).mpr (by norm_num), by norm_num, by norm_num⟩

/-- C2: threshold evaluation is a pure function of
(total, quota, ratio) returning "warning" exactly when
total > quota * ratio and "ok" otherwise; with quota = 1500 and
ratio = 0.9, a total of 1350 is "ok" and 1351 is "warning". -/
theorem evaluate_threshold_boundary :
    (∀ total quota ratio : ℚ,
      (evaluate_threshold total quota ratio = "warning" ↔
        quota * ratio < total) ∧
      (evaluate_threshold total quota ratio = "ok" ↔
        total ≤ quota * ratio)) ∧
    evaluate_threshold 1350 1500 (9/10) = "ok" ∧
    evaluate_threshold 1351 1500 (9/10) = "warning" := by
  refine ⟨fun total quota ratio => ?_, ?_, ?_⟩
  · rcases lt_or_le (quota * ratio) total with h | h
    · have hs : evaluate_threshold total quota ratio = "warning" := by
        unfold evaluate_threshold; rw [if_pos h]
      refine ⟨⟨fun _ => h, fun _ => hs⟩, ⟨fun he => ?_, fun hle => ?_⟩⟩
      · rw [hs] at he; exact absurd he (by decide)
      · linarith
    · have hs : evaluate_threshold total quota ratio = "ok" := by
        unfold evaluate_threshold; rw [if_neg (not_lt.mpr h)]
      refine ⟨⟨fun he => ?_, fun hlt => ?_⟩, ⟨fun _ => h, fun _ => hs⟩⟩
      · rw [hs] at he; exact absurd he (by decide)
      · linarith
  · unfold evaluate_threshold; rw [if_neg (by norm_num)]
  · unfold evaluate_threshold; rw [if_pos (by norm_num)]

/-- Witness for `evaluate_threshold_boundary` at the concrete
boundary input. -/
theorem evaluate_threshold_boundary_witness :
    evaluate_threshold 1350 1500 (9/10) = "ok" ∧ (1350:ℚ) ≤ 1500 * (9/10) :=
  ⟨((evaluate_threshold_boundary.1 1350 1500 (9/10)).2).mpr (by norm_num),
    by norm_num⟩

/-- C3: whenever the scorer emits only the IsolationForest codes
1 (inlier) and -1 (outlier), the anomaly pass gives each row exactly
one label: Anomaly if the scorer labelled it an outlier and Normal
otherwise. -/
theorem anomaly_label_iff :
    ∀ preds : List ℤ, (∀ p ∈ preds, p = 1 ∨ p = -1) →
      anomalyLabels preds =
        preds.map (fun p => some (if p = -1 then "Anomaly" else "Normal")) := by
  intro preds
  induction preds with
  | nil => intro _; rfl
  | cons a t ih =>
    intro h
    have ha := h a (List.mem_cons_self a t)
    have ht := fun p hp => h p (List.mem_cons_of_mem a hp)
    unfold anomalyLabels at ih ⊢
    simp only [List.map_cons, ih ht]
    rcases ha with h1 | h1 <;> subst h1 <;> rfl

/-- Witness for `anomaly_label_iff` at a concrete prediction list. -/
theorem anomaly_label_iff_witness :
    anomalyLabels [1, -1, 1] =
      ([1, -1, 1] : List ℤ).map
        (fun p => some (if p = -1 then "Anomaly" else "Normal")) :=
  anomaly_label_iff [1, -1, 1] (by decide)

/-- C4: daily rows for January 1-3 of 2024 (hours 0, 24, 48 of the
simulated range) with usage 10, 20, 30, resampled by month with sum,
give a single January bucket whose aggregate is 60 = 10 + 20 + 30. -/
theorem group_by_month_sum :
    resampleSum monthOfHour [(0, 10), (24, 20), (48, 30)] = [(0, 10 + 20 + 30)] := by
  have hm0 : monthOfHour 0 = 0 := by norm_num [monthOfHour, monthOfDayAux, monthLengths2024]
  have hm1 : monthOfHour 24 = 0 := by norm_num [monthOfHour, monthOfDayAux, monthLengths2024]
  have hm2 : monthOfHour 48 = 0 := by norm_num [monthOfHour, monthOfDayAux, monthLengths2024]
  have hlo : resLo monthOfHour [(0, (10:ℚ)), (24, 20), (48, 30)] = 0 := by
    simp [resLo, hm0, hm1, hm2]
  have hhi : resHi monthOfHour [(0, (10:ℚ)), (24, 20), (48, 30)] = 0 := by
    simp [resHi, hm0, hm1, hm2]
  have hb : bucketSum monthOfHour [(0, (10:ℚ)), (24, 20), (48, 30)] 0 = 10 + 20 + 30 := by
    simp [bucketSum, hm0, hm1, hm2]
    norm_num
  unfold resampleSum
  rw [hlo, hhi]
  simp only [List.isEmpty, Bool.false_eq_true, if_false, List.range']
  simp [hb]

theorem foldl_min_le (trunc : ℕ → ℕ) (l : List (ℕ × ℚ)) (a : ℕ) :
    l.foldl (fun b p => min b (trunc p.1)) a ≤ a := by
  induction l generalizing a with
  | nil => exact le_refl a
  | cons x t ih =>
    simp only [List.foldl_cons]
    exact le_trans (ih _) (min_le_left _ _)

theorem le_foldl_max (trunc : ℕ → ℕ) (l : List (ℕ × ℚ)) (a : ℕ) :
    a ≤ l.foldl (fun b p => max b (trunc p.1)) a := by
  induction l generalizing a with
  | nil => exact le_refl a
  | cons x t ih =>
    simp only [List.foldl_cons]
    exact le_trans (le_max_left _ _) (ih _)

theorem resLo_le_resHi (trunc : ℕ → ℕ) (rows : List (ℕ × ℚ)) (hne : rows ≠ []) :
    resLo trunc rows ≤ resHi trunc rows := by
  cases rows with
  | nil => exact absurd rfl hne
  | cons r rs =>
    exact le_trans (foldl_min_le trunc rs (trunc r.1)) (le_foldl_max trunc rs (trunc r.1))

theorem resampleSum_of_ne_nil (trunc : ℕ → ℕ) (rows : List (ℕ × ℚ)) (hne : rows ≠ []) :
    resampleSum trunc rows =
      (List.range' (resLo trunc rows) (resHi trunc rows - resLo trunc rows + 1)).map
        (fun k => (k, bucketSum trunc rows k)) := by
  cases rows with
  | nil => exact absurd rfl hne
  | cons r rs => rfl

/-- C5 counterexample: with rows at hours 0 and 48 (days 0 and 2) and
no row on day 1, the daily resample emits a bucket for day 1 anyway
(with sum 0), so it is false that every emitted bucket contains at
least one row. -/
theorem resample_emits_empty_bucket :
    ¬ (∀ p ∈ resampleSum dayOfHour [(0, (10:ℚ)), (48, 30)],
        ∃ r ∈ [(0, (10:ℚ)), (48, 30)], dayOfHour r.1 = p.1) := by
  intro hall
  have hres : resampleSum dayOfHour [(0, (10:ℚ)), (48, 30)] =
      [(0, 10), (1, 0), (2, 30)] := by
    have hlo : resLo dayOfHour [(0, (10:ℚ)), (48, 30)] = 0 := by
      simp [resLo, dayOfHour]
    have hhi : resHi dayOfHour [(0, (10:ℚ)), (48, 30)] = 2 := by
      simp [resHi, dayOfHour]
    have hb0 : bucketSum dayOfHour [(0, (10:ℚ)), (48, 30)] 0 = 10 := by
      simp [bucketSum, dayOfHour]
    have hb1 : bucketSum dayOfHour [(0, (10:ℚ)), (48, 30)] 1 = 0 := by
      simp [bucketSum, dayOfHour]
    have hb2 : bucketSum dayOfHour [(0, (10:ℚ)), (48, 30)] 2 = 30 := by
      simp [bucketSum, dayOfHour]
    rw [resampleSum_of_ne_nil dayOfHour _ (by simp), hlo, hhi]
    simp only [List.range']
    simp [hb0, hb1, hb2]
  obtain ⟨r, hr, he⟩ := hall (1, 0) (by rw [hres]; simp)
  simp only [List.mem_cons, List.mem_singleton] at hr
  rcases hr with h | h
  · subst h; norm_num [dayOfHour] at he
  · rcases h with h | h
    · subst h; norm_num [dayOfHour] at he
    · simp at h

/-- C5 amended: the resample keeps every period between the first and
the last row's period — a period with zero rows is emitted as a
zero-valued bucket, not omitted — and emits nothing outside that span;
every emitted bucket's value is the sum of its rows' values. -/
theorem resample_span_zero_fill (trunc : ℕ → ℕ) (rows : List (ℕ × ℚ))
    (hne : rows ≠ []) :
    (∀ p ∈ resampleSum trunc rows,
        resLo trunc rows ≤ p.1 ∧ p.1 ≤ resHi trunc rows ∧
        p.2 = bucketSum trunc rows p.1) ∧
    (∀ k, resLo trunc rows ≤ k → k ≤ resHi trunc rows →
        (k, bucketSum trunc rows k) ∈ resampleSum trunc rows) ∧
    (∀ k, resLo trunc rows ≤ k → k ≤ resHi trunc rows →
        rows.filter (fun p => trunc p.1 == k) = [] →
        ((k, (0:ℚ)) ∈ resampleSum trunc rows)) := by
  have hlh := resLo_le_resHi trunc rows hne
  have heq := resampleSum_of_ne_nil trunc rows hne
  refine ⟨?_, ?_, ?_⟩
  · intro p hp
    rw [heq] at hp
    obtain ⟨k, hk, rfl⟩ := List.mem_map.mp hp
    have hk' := List.mem_range'_1.mp hk
    exact ⟨hk'.1, by omega, rfl⟩
  · intro k h1 h2
    rw [heq]
    exact List.mem_map.mpr ⟨k, List.mem_range'_1.mpr ⟨h1, by omega⟩, rfl⟩
  · intro k h1 h2 hf
    have hb : bucketSum trunc rows k = 0 := by simp [bucketSum, hf]
    rw [heq]
    refine List.mem_map.mpr ⟨k, List.mem_range'_1.mpr ⟨h1, by omega⟩, ?_⟩
    rw [hb]

/-- Witness for `resample_span_zero_fill`: on rows at days 0 and 2,
the empty day 1 is emitted as the zero bucket (1, 0). -/
theorem resample_span_zero_fill_witness :
    ((1:ℕ), (0:ℚ)) ∈ resampleSum dayOfHour [(0, (10:ℚ)), (48, 30)] := by
  refine (resample_span_zero_fill dayOfHour [(0, (10:ℚ)), (48, 30)] (by simp)).2.2
    1 ?_ ?_ ?_
  · simp [resLo, dayOfHour]
  · simp [resHi, dayOfHour]
  · simp [dayOfHour]

/-- C6 counterexample: when the scorer fails, the run produces no
output at all — in particular the daily summary is not available,
contradicting the claim that summary statistics survive a scorer
failure. -/
theorem scorer_failure_aborts_run :
    ¬ ∃ out : AppOutput, runApp failingScorer [10, 20] = .ok out := by
  rintro ⟨out, h⟩
  simp [runApp, failingScorer] at h

/-- C6 amended: a scorer failure propagates as the run's error — the
run never yields an output, so no result labels every row Normal, but
the summary computed later in the same run is lost too. -/
theorem scorer_failure_propagates (scorer : List ℚ → Except String (List ℤ))
    (usage : List ℚ) (e : String) (h : scorer usage = .error e) :
    runApp scorer usage = .error e ∧
    ∀ out : AppOutput, runApp scorer usage ≠ .ok out := by
  unfold runApp
  rw [h]
  exact ⟨rfl, fun out hc => by cases hc⟩

/-- Witness for `scorer_failure_propagates` at the failing scorer. -/
theorem scorer_failure_propagates_witness :
    runApp failingScorer [10, 20] = .error "could not fit model" :=
  (scorer_failure_propagates failingScorer [10, 20] "could not fit model" rfl).1

/-- C7 counterexample: on an empty day the source's summary has the
numeric defaults dayUsage 0, remaining 1500, cost 0 (there is no raise,
but the statistics are numbers, not the undefined markers the spec's
`summarize` contract predicts). -/
theorem summary_empty_numeric_defaults :
    daySummary [] = ⟨0, 1500, 0⟩ ∧ summarize_spec [] = none := by
  constructor
  · simp [daySummary, daily_quota, cost_per_liter]
  · rfl

/-- C7 amended: the summary of an empty row list is computed without
error, but with numeric defaults — usage 0 (a pandas empty sum is 0),
remaining equal to the full quota, and cost 0 — rather than with
undefined statistics. -/
theorem summary_empty_no_raise :
    (daySummary []).dayUsage = 0 ∧
    (daySummary []).remaining = daily_quota ∧
    (daySummary []).cost = 0 := by
  refine ⟨rfl, ?_, ?_⟩
  · show max (daily_quota - ([] : List ℚ).sum) 0 = daily_quota
    norm_num [daily_quota]
  · show ([] : List ℚ).sum * cost_per_liter = 0
    norm_num

/-- C8: the metrics passes never change the stored observations — the
annotated rows carry every field (timestamp and all usage values) of
every observation through unchanged, and the summary and threshold
evaluations are functions that return fresh values. -/
theorem engine_preserves_rows :
    ∀ (rows : List Obs) (preds : List ℤ), preds.length = rows.length →
      (addMetrics rows preds).map Prod.fst = rows := by
  intro rows preds h
  unfold addMetrics
  induction rows generalizing preds with
  | nil => simp
  | cons r t ih =>
    cases preds with
    | nil => simp at h
    | cons p ps =>
      simp only [List.zipWith_cons_cons, List.map_cons]
      rw [ih ps (by simpa using h)]

/-- Witness for `engine_preserves_rows` at a concrete row. -/
theorem engine_preserves_rows_witness :
    (addMetrics [⟨0, 1, 2, 3, 4, 10⟩] [1]).map Prod.fst = [⟨0, 1, 2, 3, 4, 10⟩] :=
  engine_preserves_rows [⟨0, 1, 2, 3, 4, 10⟩] [1] rfl

/-- C9: the remaining-quota figure equals
max(quota - day's usage, 0): it is never negative, and it equals
quota minus usage whenever usage is at most the quota. -/
theorem remaining_clamped (rows : List ℚ) :
    (daySummary rows).remaining = max (daily_quota - (daySummary rows).dayUsage) 0 ∧
    0 ≤ (daySummary rows).remaining ∧
    ((daySummary rows).dayUsage ≤ daily_quota →
      (daySummary rows).remaining = daily_quota - (daySummary rows).dayUsage) := by
  refine ⟨rfl, le_max_right _ _, fun h => ?_⟩
  exact max_eq_left (sub_nonneg.mpr h)

/-- Witness for `remaining_clamped` at a one-row day. -/
theorem remaining_clamped_witness :
    (daySummary [100]).remaining = daily_quota - (daySummary [100]).dayUsage :=
  (remaining_clamped [100]).2.2 (by norm_num [daySummary, daily_quota])

/-- C10: every row produced by the simulation, anomaly-scaled or not,
has its `usage_liters` total equal to the sum of its four component
fields, because the total is recomputed after the anomaly multipliers
are applied. -/
theorem total_is_component_sum :
    ∀ (base : List Obs) (anomalyFactor : ℕ → Option ℚ),
      ∀ r ∈ simulate_data base anomalyFactor,
        r.total = r.main + r.garden + r.kitchen + r.bathroom := by
  intro base af r hr
  unfold simulate_data at hr
  obtain ⟨s, _, rfl⟩ := List.mem_map.mp hr
  rfl

/-- Witness for `total_is_component_sum` on a one-row base with the
row scaled by the anomaly factor 2. -/
theorem total_is_component_sum_witness :
    (⟨0, 2, 4, 6, 8, 20⟩ : Obs).total =
      (⟨0, 2, 4, 6, 8, 20⟩ : Obs).main + (⟨0, 2, 4, 6, 8, 20⟩ : Obs).garden +
      (⟨0, 2, 4, 6, 8, 20⟩ : Obs).kitchen + (⟨0, 2, 4, 6, 8, 20⟩ : Obs).bathroom :=
  total_is_component_sum [⟨0, 1, 2, 3, 4, 0⟩] (fun _ => some 2)
    ⟨0, 2, 4, 6, 8, 20⟩ (by
      simp only [simulate_data, injectAnomalies, List.map, withTotal, injectAnomaly]
      norm_num)

end WaterGuard
